import Mathlib

/-!
Verification of the session-statistics aggregator (`session_stats.rs`) and the
stats popup view (`stats_view.rs`) of the codex TUI.

Conventions of the embedding:
* Rust `Duration` is a count of nanoseconds (`Nat`); `Instant` values are
  nanosecond timestamps passed explicitly as a `now : Nat` argument to the
  operations that read the clock.
* Rust `f64` arithmetic is modelled exactly over `ℚ`; the properties proved
  here concern branch structure and zero-division guards, not rounding.
* `HashMap<PathBuf, u32>` is modelled as an association list
  `List (String × Nat)` carrying the map's contents in its iteration order;
  distinct list values that are permutations of one another represent the
  same map contents under different (hash-seed dependent) iteration orders.
* `u16` arithmetic in the render path is taken modulo `2 ^ 16 = 65536` where
  the Rust code performs a cast.
-/

/-- Rust `std::time::Duration`, as a nanosecond count. -/
structure Duration where
  nanos : Nat
deriving DecidableEq

/-- `Duration::from_secs`. -/
def Duration.from_secs (n : Nat) : Duration := ⟨n * 1000000000⟩

/-- `Duration::from_millis`. -/
def Duration.from_millis (n : Nat) : Duration := ⟨n * 1000000⟩

/-- `Duration::as_secs` (whole seconds, truncating). -/
def Duration.as_secs (d : Duration) : Nat := d.nanos / 1000000000

/-- `Duration::as_millis` (whole milliseconds, truncating). -/
def Duration.as_millis (d : Duration) : Nat := d.nanos / 1000000

/-- `Duration::as_secs_f64`, modelled exactly over `ℚ`. -/
def Duration.as_secs_q (d : Duration) : ℚ := (d.nanos : ℚ) / 1000000000

instance : Add Duration := ⟨fun a b => ⟨a.nanos + b.nanos⟩⟩

/-- `format_duration` from `session_stats.rs`. -/
def format_duration (d : Duration) : String :=
  let secs := d.as_secs
  if secs ≥ 3600 then
    let hours := secs / 3600
    let mins := (secs % 3600) / 60
    toString hours ++ "h " ++ toString mins ++ "m"
  else if secs ≥ 60 then
    let mins := secs / 60
    let remaining_secs := secs % 60
    toString mins ++ "m " ++ toString remaining_secs ++ "s"
  else if secs > 0 then
    toString secs ++ "s"
  else
    let millis := d.as_millis
    toString millis ++ "ms"

/-- `CommandStat` from `session_stats.rs`. -/
structure CommandStat where
  command : String
  exit_code : Int
  duration : Duration
deriving DecidableEq

/-- `CommandStat::is_success`. -/
def CommandStat.is_success (c : CommandStat) : Bool := c.exit_code == 0

/-- `TurnTokenUsage` from `session_stats.rs`. -/
structure TurnTokenUsage where
  turn_number : Nat
  input_tokens : Int
  output_tokens : Int
  reasoning_tokens : Int
  cached_tokens : Int
deriving DecidableEq

/-- `TurnTokenUsage::total`. -/
def TurnTokenUsage.total (t : TurnTokenUsage) : Int :=
  t.input_tokens + t.output_tokens

/-- Modelled from the spec: the token-usage input record supplied by the host
session runtime (`codex_core::protocol::TokenUsage` is outside the provided
sources); the spec lists exactly these four signed-integer fields. -/
structure TokenUsage where
  input_tokens : Int
  output_tokens : Int
  reasoning_output_tokens : Int
  cached_input_tokens : Int
deriving DecidableEq

/-- `SessionStats` from `session_stats.rs`.  The two file-counter maps are
association lists in iteration order; `Instant` fields are nanosecond
timestamps. -/
structure SessionStats where
  commands : List CommandStat
  files_modified : List (String × Nat)
  files_accessed : List (String × Nat)
  turn_token_usage : List TurnTokenUsage
  current_turn : Nat
  model_wait_time : Duration
  tool_execution_time : Duration
  model_request_start : Option Nat
  tool_execution_start : Option Nat
  session_start : Nat
deriving DecidableEq

/-- `SessionStats::new`, at clock value `now`. -/
def SessionStats.new (now : Nat) : SessionStats where
  commands := []
  files_modified := []
  files_accessed := []
  turn_token_usage := []
  current_turn := 0
  model_wait_time := ⟨0⟩
  tool_execution_time := ⟨0⟩
  model_request_start := none
  tool_execution_start := none
  session_start := now

/-- `SessionStats::record_command`. -/
def SessionStats.record_command (s : SessionStats) (command : String)
    (exit_code : Int) (duration : Duration) : SessionStats :=
  { s with commands := s.commands ++ [⟨command, exit_code, duration⟩] }

/-- `SessionStats::total_commands`. -/
def SessionStats.total_commands (s : SessionStats) : Nat := s.commands.length

/-- `SessionStats::successful_commands`. -/
def SessionStats.successful_commands (s : SessionStats) : Nat :=
  (s.commands.filter CommandStat.is_success).length

/-- `SessionStats::failed_commands`. -/
def SessionStats.failed_commands (s : SessionStats) : Nat :=
  (s.commands.filter (fun c => !c.is_success)).length

/-- `SessionStats::success_rate` (f64 modelled over ℚ). -/
def SessionStats.success_rate (s : SessionStats) : ℚ :=
  if s.commands.isEmpty then 100
  else ((s.successful_commands : ℚ) / (s.commands.length : ℚ)) * 100

/-- `SessionStats::total_command_time`. -/
def SessionStats.total_command_time (s : SessionStats) : Duration :=
  ⟨(s.commands.map (fun c => c.duration.nanos)).sum⟩

/-- The `*self.map.entry(path).or_insert(0) += 1` pattern on an association
list: bump the count at the key when present, otherwise insert count 1. -/
def bump_count : List (String × Nat) → String → List (String × Nat)
  | [], p => [(p, 1)]
  | (q, n) :: rest, p =>
      if q = p then (q, n + 1) :: rest else (q, n) :: bump_count rest p

/-- `SessionStats::record_file_modified`. -/
def SessionStats.record_file_modified (s : SessionStats) (path : String) :
    SessionStats :=
  { s with files_modified := bump_count s.files_modified path }

/-- `SessionStats::record_file_accessed`. -/
def SessionStats.record_file_accessed (s : SessionStats) (path : String) :
    SessionStats :=
  { s with files_accessed := bump_count s.files_accessed path }

/-- `SessionStats::files_modified_count`. -/
def SessionStats.files_modified_count (s : SessionStats) : Nat :=
  s.files_modified.length

/-- `SessionStats::files_accessed_count`. -/
def SessionStats.files_accessed_count (s : SessionStats) : Nat :=
  s.files_accessed.length

/-- The comparator of `top_accessed_files` / `top_modified_files`:
`files.sort_by(|a, b| b.1.cmp(&a.1))` orders by descending count.  Rust's
`sort_by` is stable, as is `List.mergeSort`. -/
def by_count_desc (a b : String × Nat) : Bool := decide (b.2 ≤ a.2)

/-- `SessionStats::top_accessed_files`. -/
def SessionStats.top_accessed_files (s : SessionStats) (limit : Nat) :
    List (String × Nat) :=
  (s.files_accessed.mergeSort by_count_desc).take limit

/-- `SessionStats::top_modified_files`. -/
def SessionStats.top_modified_files (s : SessionStats) (limit : Nat) :
    List (String × Nat) :=
  (s.files_modified.mergeSort by_count_desc).take limit

/-- `SessionStats::start_turn`. -/
def SessionStats.start_turn (s : SessionStats) : SessionStats :=
  { s with current_turn := s.current_turn + 1 }

/-- `SessionStats::record_turn_tokens`. -/
def SessionStats.record_turn_tokens (s : SessionStats) (usage : TokenUsage) :
    SessionStats :=
  { s with turn_token_usage := s.turn_token_usage ++
      [{ turn_number := s.current_turn
         input_tokens := usage.input_tokens
         output_tokens := usage.output_tokens
         reasoning_tokens := usage.reasoning_output_tokens
         cached_tokens := usage.cached_input_tokens }] }

/-- `SessionStats::turn_token_breakdown`. -/
def SessionStats.turn_token_breakdown (s : SessionStats) :
    List TurnTokenUsage := s.turn_token_usage

/-- `SessionStats::total_tokens`. -/
def SessionStats.total_tokens (s : SessionStats) : Int :=
  (s.turn_token_usage.map TurnTokenUsage.total).sum

/-- `SessionStats::total_input_tokens`. -/
def SessionStats.total_input_tokens (s : SessionStats) : Int :=
  (s.turn_token_usage.map (fun t => t.input_tokens)).sum

/-- `SessionStats::total_output_tokens`. -/
def SessionStats.total_output_tokens (s : SessionStats) : Int :=
  (s.turn_token_usage.map (fun t => t.output_tokens)).sum

/-- `SessionStats::start_model_request`, at clock value `now`. -/
def SessionStats.start_model_request (s : SessionStats) (now : Nat) :
    SessionStats :=
  { s with model_request_start := some now }

/-- `SessionStats::end_model_request`, at clock value `now`
(`start.elapsed()` is `now - start` on the monotonic clock). -/
def SessionStats.end_model_request (s : SessionStats) (now : Nat) :
    SessionStats :=
  match s.model_request_start with
  | none => s
  | some start =>
      { s with
        model_wait_time := s.model_wait_time + ⟨now - start⟩
        model_request_start := none }

/-- `SessionStats::start_tool_execution`, at clock value `now`. -/
def SessionStats.start_tool_execution (s : SessionStats) (now : Nat) :
    SessionStats :=
  { s with tool_execution_start := some now }

/-- `SessionStats::end_tool_execution`, at clock value `now`. -/
def SessionStats.end_tool_execution (s : SessionStats) (now : Nat) :
    SessionStats :=
  match s.tool_execution_start with
  | none => s
  | some start =>
      { s with
        tool_execution_time := s.tool_execution_time + ⟨now - start⟩
        tool_execution_start := none }

/-- `SessionStats::session_duration`, at clock value `now`. -/
def SessionStats.session_duration (s : SessionStats) (now : Nat) : Duration :=
  ⟨now - s.session_start⟩

/-- `SessionStats::model_wait_percentage` (f64 modelled over ℚ). -/
def SessionStats.model_wait_percentage (s : SessionStats) (now : Nat) : ℚ :=
  let total := (s.session_duration now).as_secs_q
  if total = 0 then 0
  else (s.model_wait_time.as_secs_q / total) * 100

/-- `SessionStats::tool_execution_percentage` (f64 modelled over ℚ). -/
def SessionStats.tool_execution_percentage (s : SessionStats) (now : Nat) : ℚ :=
  let total := (s.session_duration now).as_secs_q
  if total = 0 then 0
  else (s.tool_execution_time.as_secs_q / total) * 100

/-!
### The stats popup view (`stats_view.rs`)

Lines are modelled as lists of span texts (styling is immaterial to the
properties proved here).  The external formatting collaborators that are not
part of the provided sources are bundled in `ExternalFmt`.
-/

/-- Modelled from the spec: the external formatting collaborators used by the
line formatter — `format_tokens_compact` (from `crate::status`, outside the
provided sources), the `{:.1}` percentage rendering of Rust `format!`, and the
`path.file_name()`-with-fallback display of file paths. -/
structure ExternalFmt where
  format_tokens_compact : Int → String
  percent_1dp : ℚ → String
  file_display : String → String

/-- `section_header` from `stats_view.rs` (span texts of the line). -/
def section_header (title : String) : List String :=
  ["── ", title, " ──"]

/-- `stat_line` from `stats_view.rs` (span texts of the line). -/
def stat_line (label value : String) : List String :=
  ["  ", label ++ ": ", value]

/-- One line of the "Recent turns" sub-list of `build_stats_lines`. -/
def turn_line (ftc : Int → String) (t : TurnTokenUsage) : List String :=
  ["    Turn " ++ toString t.turn_number ++ ": ",
   ftc t.input_tokens, " in, ", ftc t.output_tokens, " out"]

/-- The "Recent turns" block of `build_stats_lines`: omitted when the turn log
is empty, otherwise a dim header line followed by
`turn_breakdown.iter().rev().take(5).rev()` rendered by `turn_line`. -/
def recent_turns_lines (ftc : Int → String) (breakdown : List TurnTokenUsage) :
    List (List String) :=
  if breakdown.isEmpty then []
  else ["  Recent turns:"] ::
    ((breakdown.reverse.take 5).reverse.map (turn_line ftc))

/-- The "Top accessed" block of `build_stats_lines`: omitted when
`top_accessed_files 3` is empty. -/
def top_accessed_lines (F : ExternalFmt) (s : SessionStats) :
    List (List String) :=
  let top := s.top_accessed_files 3
  if top.isEmpty then []
  else ["  Top accessed:"] ::
    top.map (fun pc =>
      ["    ", F.file_display pc.1, " (" ++ toString pc.2 ++ "x)"])

/-- `build_stats_lines` from `stats_view.rs`, at clock value `now`. -/
def build_stats_lines (F : ExternalFmt) (now : Nat) (s : SessionStats) :
    List (List String) :=
  [section_header "Commands",
   stat_line "Total executed" (toString s.total_commands),
   stat_line "Successful"
     (toString s.successful_commands ++ " (" ++
      F.percent_1dp s.success_rate ++ "%)"),
   stat_line "Failed" (toString s.failed_commands),
   stat_line "Total exec time" (format_duration s.total_command_time),
   [""],
   section_header "Files",
   stat_line "Files modified" (toString s.files_modified_count),
   stat_line "Files accessed" (toString s.files_accessed_count)] ++
  top_accessed_lines F s ++
  [[""],
   section_header "Turns & Tokens",
   stat_line "Total turns" (toString s.current_turn),
   stat_line "Total tokens" (F.format_tokens_compact s.total_tokens),
   stat_line "Input tokens" (F.format_tokens_compact s.total_input_tokens),
   stat_line "Output tokens" (F.format_tokens_compact s.total_output_tokens)] ++
  recent_turns_lines F.format_tokens_compact s.turn_token_breakdown ++
  [[""],
   section_header "Timing",
   stat_line "Session duration" (format_duration (s.session_duration now)),
   stat_line "Model wait time"
     (format_duration s.model_wait_time ++ " (" ++
      F.percent_1dp (s.model_wait_percentage now) ++ "%)"),
   stat_line "Tool exec time"
     (format_duration s.tool_execution_time ++ " (" ++
      F.percent_1dp (s.tool_execution_percentage now) ++ "%)")]

/-- Modelled from the spec: the `ScrollState` of `scroll_state.rs` (only its
tests and callers are in the provided sources) — a selected index plus a
committed scroll offset. -/
structure ScrollState where
  selected_idx : Option Nat
  scroll_top : Nat
deriving DecidableEq

/-- Modelled from the spec: `move_selection_up` decrements the selected index,
wrapping from 0 to `len - 1` (circular navigation). -/
def ScrollState.move_up_wrap (st : ScrollState) (len : Nat) : ScrollState :=
  let sel := match st.selected_idx with
    | some i => if i = 0 then len - 1 else i - 1
    | none => len - 1
  { st with selected_idx := some sel }

/-- Modelled from the spec: `move_selection_down` increments the selected
index, wrapping from `len - 1` to 0. -/
def ScrollState.move_down_wrap (st : ScrollState) (len : Nat) : ScrollState :=
  let sel := match st.selected_idx with
    | some i => if i + 1 < len then i + 1 else 0
    | none => 0
  { st with selected_idx := some sel }

/-- Modelled from the spec: `ensure_visible` minimally adjusts `scroll_top` so
the selected index falls inside the viewport and clamps it into
`[0, max 0 (len - rows)]`; a zero-row viewport shows nothing. -/
def ScrollState.ensure_visible (st : ScrollState) (len rows : Nat) :
    ScrollState :=
  if rows = 0 then { st with scroll_top := 0 }
  else
    let sel := st.selected_idx.getD 0
    let top :=
      if sel < st.scroll_top then sel
      else if st.scroll_top + rows ≤ sel then sel + 1 - rows
      else st.scroll_top
    { st with scroll_top := min top (len - rows) }

/-- Modelled from the spec: `MAX_POPUP_ROWS` lives in `popup_consts.rs`,
outside the provided sources; its concrete value is irrelevant to the
properties proved here, so the view operations take it as a parameter
`maxRows` (the theorems hold for every `maxRows < 2 ^ 16`). -/
def default_max_popup_rows : Nat := 8

/-- Crossterm key codes, restricted to the variants `handle_key_event`
distinguishes; `other` stands for every remaining (unrecognized) variant,
which the wildcard arm of the Rust `match` ignores. -/
inductive KeyCode where
  | up
  | down
  | char (c : Char)
  | esc
  | enter
  | other
deriving DecidableEq

/-- Crossterm key modifiers; `KeyModifiers::NONE` is all-false. -/
structure KeyModifiers where
  shift : Bool
  control : Bool
  alt : Bool
deriving DecidableEq

/-- `KeyModifiers::NONE`. -/
def KeyModifiers.NONE : KeyModifiers := ⟨false, false, false⟩

/-- A crossterm `KeyEvent` (the fields the view matches on). -/
structure KeyEvent where
  code : KeyCode
  modifiers : KeyModifiers
deriving DecidableEq

/-- `StatsView` from `stats_view.rs`; the header block is an external
renderable whose height enters `render` as a parameter. -/
structure StatsView where
  lines : List (List String)
  state : ScrollState
  complete : Bool
  last_visible_rows : Nat
deriving DecidableEq

/-- `StatsView::new` (the line list is built by `build_stats_lines`;
`selected_idx` is set to `Some(0)` unconditionally). -/
def StatsView.new (maxRows : Nat) (F : ExternalFmt) (now : Nat)
    (stats : SessionStats) : StatsView where
  lines := build_stats_lines F now stats
  state := { selected_idx := some 0, scroll_top := 0 }
  complete := false
  last_visible_rows := maxRows

/-- `StatsView::visible_len`. -/
def StatsView.visible_len (v : StatsView) : Nat := v.lines.length

/-- `StatsView::visible_rows_for_scroll`. -/
def StatsView.visible_rows_for_scroll (v : StatsView) : Nat :=
  if v.visible_len = 0 then 0 else min v.last_visible_rows v.visible_len

/-- `StatsView::move_up`. -/
def StatsView.move_up (v : StatsView) : StatsView :=
  if v.visible_len = 0 then v
  else
    let st := (v.state.move_up_wrap v.visible_len).ensure_visible
      v.visible_len v.visible_rows_for_scroll
    { v with state := st }

/-- `StatsView::move_down`. -/
def StatsView.move_down (v : StatsView) : StatsView :=
  if v.visible_len = 0 then v
  else
    let st := (v.state.move_down_wrap v.visible_len).ensure_visible
      v.visible_len v.visible_rows_for_scroll
    { v with state := st }

/-- `StatsView::on_ctrl_c` (the dismiss action). -/
def StatsView.on_ctrl_c (v : StatsView) : StatsView :=
  { v with complete := true }

/-- `StatsView::is_complete`. -/
def StatsView.is_complete (v : StatsView) : Bool := v.complete

/-- `BottomPaneView::handle_key_event` for `StatsView`: Up or unmodified `k`
scroll up; Down or unmodified `j` scroll down; Esc or Enter dismiss; anything
else is ignored. -/
def StatsView.handle_key_event (v : StatsView) (key : KeyEvent) : StatsView :=
  match key.code with
  | KeyCode.up => v.move_up
  | KeyCode.char c =>
      if c = 'k' ∧ key.modifiers = KeyModifiers.NONE then v.move_up
      else if c = 'j' ∧ key.modifiers = KeyModifiers.NONE then v.move_down
      else v
  | KeyCode.down => v.move_down
  | KeyCode.esc => v.on_ctrl_c
  | KeyCode.enter => v.on_ctrl_c
  | KeyCode.other => v

/-- Delivering a whole sequence of key events. -/
def StatsView.handle_key_events (v : StatsView) (keys : List KeyEvent) :
    StatsView :=
  keys.foldl StatsView.handle_key_event v

/-- What a render pass produces when the target area is non-degenerate. -/
structure RenderOut where
  list_height : Nat
  visible : List (List String)
deriving DecidableEq

/-- `Renderable::render` for `StatsView`, at target area
`areaW × areaH` with a header of height `headerHeight` (the header is an
external renderable).  Returns the updated view (its `last_visible_rows`
cache refreshed) and `none` when nothing is rendered (zero-area target).
Geometry: the footer row is split off by `Layout::vertical([Fill(1),
Length(1)])`, then `Insets::vh(1, 2)` removes one row at top and bottom;
`u16` casts are taken modulo 65536. -/
def StatsView.render (maxRows : Nat) (v : StatsView)
    (areaW areaH headerHeight : Nat) : StatsView × Option RenderOut :=
  if areaH = 0 ∨ areaW = 0 then (v, none)
  else
    let content_height := areaH - 1
    let content_inner_height := content_height - 2
    let available_height := content_inner_height - ((headerHeight + 1) % 65536)
    let max_list_height := (min maxRows v.lines.length) % 65536
    let list_height := min max_list_height available_height
    let visible_rows := list_height
    let scroll_offset :=
      if visible_rows = 0 then 0
      else (v.state.ensure_visible v.lines.length visible_rows).scroll_top
    ({ v with last_visible_rows := visible_rows },
     some { list_height := list_height
            visible := (v.lines.drop scroll_offset).take visible_rows })

/-!
### Call sequences on the aggregator

For the turn-numbering invariant we model call sequences on a fresh
`SessionStats` explicitly.
-/

/-- The aggregator calls relevant to turn numbering. -/
inductive StatsOp where
  | start_turn
  | record_turn_tokens (usage : TokenUsage)
deriving DecidableEq

/-- Apply one call. -/
def apply_op (s : SessionStats) : StatsOp → SessionStats
  | StatsOp.start_turn => s.start_turn
  | StatsOp.record_turn_tokens u => s.record_turn_tokens u

/-- Run a call sequence left to right. -/
def run_ops (s : SessionStats) (ops : List StatsOp) : SessionStats :=
  ops.foldl apply_op s

/-- The discipline named by the claim, as written: a `start_turn` call occurs
immediately before each `record_turn_tokens` call (`prev` is the preceding
call, if any). -/
def started_before_each : Option StatsOp → List StatsOp → Bool
  | _, [] => true
  | prev, op :: rest =>
      (match op with
       | StatsOp.record_turn_tokens _ =>
           match prev with
           | some StatsOp.start_turn => true
           | _ => false
       | _ => true) && started_before_each (some op) rest

/-- The strictly alternating discipline: one `start_turn` immediately before
each `record_turn_tokens`, and nothing else. -/
def alternate_ops : List TokenUsage → List StatsOp
  | [] => []
  | u :: us => StatsOp.start_turn :: StatsOp.record_turn_tokens u ::
      alternate_ops us

/-- The sequence of `turn_number` fields of the appended records. -/
def turn_numbers (s : SessionStats) : List Nat :=
  s.turn_token_usage.map TurnTokenUsage.turn_number

/-- C10: `total_tokens()` equals `total_input_tokens() + total_output_tokens()`
— per-turn reasoning and cached tokens are recorded but never enter the
reported total. -/
theorem total_tokens_split (s : SessionStats) :
    s.total_tokens = s.total_input_tokens + s.total_output_tokens := by
  unfold SessionStats.total_tokens SessionStats.total_input_tokens
    SessionStats.total_output_tokens
  induction s.turn_token_usage with
  | nil => simp
  | cons t ts ih =>
      simp only [List.map_cons, List.sum_cons, TurnTokenUsage.total] at *
      omega

/-- C4: `success_rate()` returns exactly 100 on an empty command log and
otherwise `successful_commands / total_commands * 100`, with a non-zero
divisor. -/
theorem success_rate_guarded (s : SessionStats) :
    (s.commands = [] → s.success_rate = 100) ∧
    (s.commands ≠ [] →
      s.success_rate =
        (s.successful_commands : ℚ) / (s.total_commands : ℚ) * 100 ∧
      (s.total_commands : ℚ) ≠ 0) := by
  constructor
  · intro h
    simp [SessionStats.success_rate, h]
  · intro h
    have hne : s.commands.isEmpty = false := by
      simpa [List.isEmpty_iff] using h
    have hpos : 0 < s.commands.length := List.length_pos.mpr h
    refine ⟨by simp [SessionStats.success_rate, hne, SessionStats.total_commands], ?_⟩
    simp only [SessionStats.total_commands]
    exact Nat.cast_ne_zero.mpr (by omega)

/-- A two-command demo state used by witnesses. -/
def demo_stats : SessionStats :=
  ((SessionStats.new 0).record_command "ls" 0 (Duration.from_secs 1)).record_command
    "grep" 1 (Duration.from_secs 2)

theorem success_rate_guarded_witness :
    (SessionStats.new 0).success_rate = 100 ∧
    demo_stats.success_rate =
      (demo_stats.successful_commands : ℚ) / (demo_stats.total_commands : ℚ) * 100 ∧
    (demo_stats.total_commands : ℚ) ≠ 0 := by
  refine ⟨(success_rate_guarded (SessionStats.new 0)).1 rfl, ?_, ?_⟩
  · exact ((success_rate_guarded demo_stats).2 (by decide)).1
  · exact ((success_rate_guarded demo_stats).2 (by decide)).2

/-- C5: `format_duration` renders hours+minutes at and above 3600s,
minutes+seconds at and above 60s, whole seconds at and above 1s, and
milliseconds below that, with exact cutoffs; the four example values of the
spec evaluate as stated. -/
theorem format_duration_cases (d : Duration) :
    (3600 ≤ d.as_secs →
      format_duration d =
        toString (d.as_secs / 3600) ++ "h " ++
        toString (d.as_secs % 3600 / 60) ++ "m") ∧
    (60 ≤ d.as_secs → d.as_secs < 3600 →
      format_duration d =
        toString (d.as_secs / 60) ++ "m " ++
        toString (d.as_secs % 60) ++ "s") ∧
    (1 ≤ d.as_secs → d.as_secs < 60 →
      format_duration d = toString d.as_secs ++ "s") ∧
    (d.as_secs = 0 → format_duration d = toString d.as_millis ++ "ms") ∧
    format_duration (Duration.from_millis 500) = "500ms" ∧
    format_duration (Duration.from_secs 30) = "30s" ∧
    format_duration (Duration.from_secs 90) = "1m 30s" ∧
    format_duration (Duration.from_secs 3661) = "1h 1m" := by
  refine ⟨?_, ?_, ?_, ?_, by decide, by decide, by decide, by decide⟩ <;>
    intros <;> simp only [format_duration] <;> split_ifs <;>
    first | rfl | omega

theorem format_duration_cases_witness :
    format_duration (Duration.from_secs 7200) = "2h 0m" := by
  have h := (format_duration_cases (Duration.from_secs 7200)).1 (by decide)
  exact h.trans (by decide)

/-- C6: `end_model_request` with no open interval is a silent no-op (the whole
state is unchanged); with an open interval it accumulates the elapsed time and
clears the marker; and a second consecutive `end_model_request` is always a
no-op, since the first call leaves the marker cleared. -/
theorem end_model_request_close_and_no_op (s : SessionStats) (now now2 : Nat) :
    (s.model_request_start = none → s.end_model_request now = s) ∧
    (∀ t, s.model_request_start = some t →
      s.end_model_request now =
        { s with
          model_wait_time := s.model_wait_time + ⟨now - t⟩
          model_request_start := none }) ∧
    (s.end_model_request now).end_model_request now2 = s.end_model_request now := by
  refine ⟨?_, ?_, ?_⟩
  · intro h
    simp [SessionStats.end_model_request, h]
  · intro t h
    simp [SessionStats.end_model_request, h]
  · rcases h : s.model_request_start with _ | t <;>
      simp [SessionStats.end_model_request, h]

theorem end_model_request_close_and_no_op_witness :
    (SessionStats.new 0).end_model_request 5 = SessionStats.new 0 ∧
    ((SessionStats.new 0).start_model_request 3).end_model_request 5 =
      { (SessionStats.new 0).start_model_request 3 with
        model_wait_time :=
          ((SessionStats.new 0).start_model_request 3).model_wait_time + ⟨5 - 3⟩
        model_request_start := none } :=
  ⟨(end_model_request_close_and_no_op (SessionStats.new 0) 5 0).1 rfl,
   (end_model_request_close_and_no_op
      ((SessionStats.new 0).start_model_request 3) 5 0).2.1 3 rfl⟩

/-- C7: both percentage accessors return 0 when the session duration is
exactly zero, and otherwise divide the accumulated time by the (non-zero)
session duration and scale by 100. -/
theorem percentages_zero_guard (s : SessionStats) (now : Nat) :
    ((s.session_duration now).nanos = 0 →
      s.model_wait_percentage now = 0 ∧
      s.tool_execution_percentage now = 0) ∧
    ((s.session_duration now).nanos ≠ 0 →
      (s.session_duration now).as_secs_q ≠ 0 ∧
      s.model_wait_percentage now =
        s.model_wait_time.as_secs_q / (s.session_duration now).as_secs_q * 100 ∧
      s.tool_execution_percentage now =
        s.tool_execution_time.as_secs_q /
          (s.session_duration now).as_secs_q * 100) := by
  have key : (s.session_duration now).as_secs_q = 0 ↔
      (s.session_duration now).nanos = 0 := by
    rw [Duration.as_secs_q, div_eq_zero_iff]
    norm_num
  constructor
  · intro h
    have hz : (s.session_duration now).as_secs_q = 0 := key.mpr h
    constructor <;>
      simp [SessionStats.model_wait_percentage,
        SessionStats.tool_execution_percentage, hz]
  · intro h
    have hnz : (s.session_duration now).as_secs_q ≠ 0 := fun hc => h (key.mp hc)
    refine ⟨hnz, ?_, ?_⟩ <;>
      simp [SessionStats.model_wait_percentage,
        SessionStats.tool_execution_percentage, hnz]

theorem percentages_zero_guard_witness :
    (SessionStats.new 0).model_wait_percentage 0 = 0 ∧
    (SessionStats.new 0).model_wait_percentage 1000000000 =
      (SessionStats.new 0).model_wait_time.as_secs_q /
        ((SessionStats.new 0).session_duration 1000000000).as_secs_q * 100 :=
  ⟨((percentages_zero_guard (SessionStats.new 0) 0).1 rfl).1,
   ((percentages_zero_guard (SessionStats.new 0) 1000000000).2 (by decide)).2.1⟩

/-- Navigation never touches the `complete` flag. -/
theorem move_up_complete (v : StatsView) : v.move_up.complete = v.complete := by
  unfold StatsView.move_up
  split <;> rfl

/-- Navigation never touches the `complete` flag. -/
theorem move_down_complete (v : StatsView) :
    v.move_down.complete = v.complete := by
  unfold StatsView.move_down
  split <;> rfl

/-- One key event never clears the `complete` flag. -/
theorem handle_key_event_complete_mono (v : StatsView) (k : KeyEvent)
    (h : v.complete = true) : (v.handle_key_event k).complete = true := by
  unfold StatsView.handle_key_event
  cases k.code with
  | up => rw [move_up_complete]; exact h
  | down => rw [move_down_complete]; exact h
  | char c =>
      dsimp only
      split_ifs <;>
        first
        | rw [move_up_complete]; exact h
        | rw [move_down_complete]; exact h
        | exact h
  | esc => rfl
  | enter => rfl
  | other => exact h

/-- C8: the `Complete` state is terminal — once `is_complete()` is true, it
stays true after any sequence of subsequent key events (navigation, dismiss,
or unrecognized keys). -/
theorem complete_is_terminal (v : StatsView) (keys : List KeyEvent)
    (h : v.is_complete = true) :
    (v.handle_key_events keys).is_complete = true := by
  induction keys generalizing v with
  | nil => exact h
  | cons k ks ih =>
      exact ih (v.handle_key_event k) (handle_key_event_complete_mono v k h)

/-- A dismissed demo view used by the C8 witness. -/
def demo_done_view : StatsView where
  lines := [["line one"], ["line two"]]
  state := { selected_idx := some 0, scroll_top := 0 }
  complete := true
  last_visible_rows := 8

theorem complete_is_terminal_witness :
    (demo_done_view.handle_key_events
      [{ code := KeyCode.up, modifiers := KeyModifiers.NONE },
       { code := KeyCode.char 'j', modifiers := KeyModifiers.NONE },
       { code := KeyCode.esc, modifiers := KeyModifiers.NONE },
       { code := KeyCode.other, modifiers := KeyModifiers.NONE }]).is_complete
      = true :=
  complete_is_terminal demo_done_view _ rfl

/-- C3 (counterexample): the call sequence `start_turn; start_turn;
record_turn_tokens` has a `start_turn` before (indeed immediately before) its
single `record_turn_tokens`, yet the first appended record carries
`turn_number = 2`, not 1 — the claim's invariant fails as stated when extra
`start_turn` calls occur. -/
theorem turn_number_gap_cex :
    started_before_each none
      [StatsOp.start_turn, StatsOp.start_turn,
       StatsOp.record_turn_tokens ⟨0, 0, 0, 0⟩] = true ∧
    turn_numbers (run_ops (SessionStats.new 0)
      [StatsOp.start_turn, StatsOp.start_turn,
       StatsOp.record_turn_tokens ⟨0, 0, 0, 0⟩]) = [2] ∧
    turn_numbers (run_ops (SessionStats.new 0)
      [StatsOp.start_turn, StatsOp.start_turn,
       StatsOp.record_turn_tokens ⟨0, 0, 0, 0⟩]) ≠
      List.range' 1 (run_ops (SessionStats.new 0)
        [StatsOp.start_turn, StatsOp.start_turn,
         StatsOp.record_turn_tokens ⟨0, 0, 0, 0⟩]).turn_token_usage.length := by
  decide

/-- Under strict alternation the turn numbers extend the existing record list
by consecutive values starting after the current turn counter. -/
theorem turn_numbers_run_alternate (us : List TokenUsage) (s : SessionStats) :
    turn_numbers (run_ops s (alternate_ops us)) =
      turn_numbers s ++ List.range' (s.current_turn + 1) us.length := by
  induction us generalizing s with
  | nil => simp [alternate_ops, run_ops, turn_numbers]
  | cons u us ih =>
      have h1 : run_ops s (alternate_ops (u :: us)) =
          run_ops ((s.start_turn).record_turn_tokens u) (alternate_ops us) :=
        rfl
      rw [h1, ih]
      simp [turn_numbers, SessionStats.start_turn,
        SessionStats.record_turn_tokens, List.range'_succ]

/-- The alternating discipline satisfies the claim's stated precondition. -/
theorem alternate_ops_started_before_each (us : List TokenUsage)
    (prev : Option StatsOp) :
    started_before_each prev (alternate_ops us) = true := by
  induction us generalizing prev with
  | nil => rfl
  | cons u us ih => simp [alternate_ops, started_before_each, ih]

/-- C3 (amended): on a fresh `SessionStats`, if the calls strictly alternate —
exactly one `start_turn` immediately before each `record_turn_tokens` — then
the Nth appended record carries `turn_number = N` (the turn-number sequence is
exactly `1, 2, …`, with no gaps or duplicates). -/
theorem turn_numbers_of_alternating (us : List TokenUsage) (t : Nat) :
    started_before_each none (alternate_ops us) = true ∧
    turn_numbers (run_ops (SessionStats.new t) (alternate_ops us)) =
      List.range' 1 us.length := by
  refine ⟨alternate_ops_started_before_each us none, ?_⟩
  have h := turn_numbers_run_alternate us (SessionStats.new t)
  simpa [turn_numbers, SessionStats.new] using h

/-- Two session states whose access maps hold the same contents (the same two
paths, each read once) under the two possible iteration orders. -/
def s_perm_a : SessionStats :=
  { SessionStats.new 0 with files_accessed := [("a", 1), ("b", 1)] }

/-- See `s_perm_a`: the same map contents in the other iteration order. -/
def s_perm_b : SessionStats :=
  { SessionStats.new 0 with files_accessed := [("b", 1), ("a", 1)] }

/-- C2 (counterexample): two states carrying identical map contents (a
permutation of one another) produce different `top_accessed_files(2)` results
— entries with equal counts are ordered by the map's hash-seed dependent
iteration order, not by any deterministic tie-break on the contents. -/
theorem top_accessed_files_tiebreak_cex :
    s_perm_a.files_accessed.Perm s_perm_b.files_accessed ∧
    s_perm_a.top_accessed_files 2 ≠ s_perm_b.top_accessed_files 2 := by
  constructor
  · exact List.Perm.swap _ _ _
  · have ha : (([("a", 1), ("b", 1)] : List (String × Nat)).mergeSort
        by_count_desc) = [("a", 1), ("b", 1)] :=
      List.mergeSort_of_sorted (by decide)
    have hb : (([("b", 1), ("a", 1)] : List (String × Nat)).mergeSort
        by_count_desc) = [("b", 1), ("a", 1)] :=
      List.mergeSort_of_sorted (by decide)
    simp only [SessionStats.top_accessed_files, s_perm_a, s_perm_b, ha, hb]
    decide

/-- C2 (amended): `top_accessed_files(k)` returns at most `k` entries of the
access map, ordered by non-increasing count; equal counts keep the map's
iteration order (the sort is stable), which is not a deterministic function of
the map's contents alone. -/
theorem top_accessed_files_sorted_bounded (s : SessionStats) (k : Nat) :
    (s.top_accessed_files k).length ≤ k ∧
    (s.top_accessed_files k).Pairwise (fun a b => b.2 ≤ a.2) ∧
    ∀ x, x ∈ s.top_accessed_files k → x ∈ s.files_accessed := by
  refine ⟨?_, ?_, ?_⟩
  · simp [SessionStats.top_accessed_files, List.length_take]
  · have trans : ∀ (a b c : String × Nat),
        by_count_desc a b → by_count_desc b c → by_count_desc a c := by
      intro a b c hab hbc
      simp only [by_count_desc, decide_eq_true_eq] at *
      omega
    have total : ∀ (a b : String × Nat),
        by_count_desc a b || by_count_desc b a := by
      intro a b
      simp only [by_count_desc, Bool.or_eq_true, decide_eq_true_eq]
      omega
    have hs := List.sorted_mergeSort trans total s.files_accessed
    have ht := List.Pairwise.sublist
      (List.take_sublist k (s.files_accessed.mergeSort by_count_desc)) hs
    exact ht.imp (fun h => by
      simpa [by_count_desc] using h)
  · intro x hx
    have hx' : x ∈ s.files_accessed.mergeSort by_count_desc :=
      List.mem_of_mem_take hx
    exact List.mem_mergeSort.mp hx'

/-- A state with two distinct access counts, for the C2 witness. -/
def demo_files_stats : SessionStats :=
  { SessionStats.new 0 with files_accessed := [("a", 2), ("b", 1)] }

theorem top_accessed_files_sorted_bounded_witness :
    (demo_files_stats.top_accessed_files 1).length ≤ 1 ∧
    ("a", 2) ∈ demo_files_stats.files_accessed := by
  have h := top_accessed_files_sorted_bounded demo_files_stats 1
  refine ⟨h.1, h.2.2 ("a", 2) ?_⟩
  have hm : demo_files_stats.files_accessed.mergeSort by_count_desc
      = [("a", 2), ("b", 1)] :=
    List.mergeSort_of_sorted (by decide)
  simp [SessionStats.top_accessed_files, demo_files_stats] at hm ⊢
  simp [hm]

/-- C1: for a non-zero-area target, `render` computes
`list_height = min(MAX_POPUP_ROWS, line_count, available_rows)` with
`available_rows = max(0, content_height - header_height - 1)` (Nat
subtraction is the `max(0, ·)`), stores it in the `last_visible_rows` cache,
and reports it as the height of the rendered list; for a zero-width or
zero-height target it renders nothing and leaves the view untouched. -/
theorem stats_view_render_viewport (maxRows : Nat) (v : StatsView)
    (areaW areaH headerHeight : Nat)
    (hm : maxRows < 65536) (hh : headerHeight + 1 < 65536) :
    ((areaW = 0 ∨ areaH = 0) →
      StatsView.render maxRows v areaW areaH headerHeight = (v, none)) ∧
    (areaW ≠ 0 → areaH ≠ 0 →
      (StatsView.render maxRows v areaW areaH headerHeight).1.last_visible_rows
        = min (min maxRows v.lines.length)
            (areaH - 1 - 2 - (headerHeight + 1)) ∧
      Option.map RenderOut.list_height
        (StatsView.render maxRows v areaW areaH headerHeight).2
        = some (min (min maxRows v.lines.length)
            (areaH - 1 - 2 - (headerHeight + 1)))) := by
  have h1 : (min maxRows v.lines.length) % 65536 = min maxRows v.lines.length :=
    Nat.mod_eq_of_lt (lt_of_le_of_lt (Nat.min_le_left _ _) hm)
  have h2 : (headerHeight + 1) % 65536 = headerHeight + 1 := Nat.mod_eq_of_lt hh
  constructor
  · intro h
    unfold StatsView.render
    rw [if_pos (Or.symm h)]
  · intro hW hH
    have hcond : ¬ (areaH = 0 ∨ areaW = 0) := by tauto
    unfold StatsView.render
    rw [if_neg hcond]
    simp [h1, h2]

/-- An active demo view with twelve one-span lines, for the C1 witness. -/
def demo_view : StatsView where
  lines := List.replicate 12 ["x"]
  state := { selected_idx := some 0, scroll_top := 0 }
  complete := false
  last_visible_rows := 8

theorem stats_view_render_viewport_witness :
    (StatsView.render 8 demo_view 20 10 2).1.last_visible_rows = 4 := by
  have h := ((stats_view_render_viewport 8 demo_view 20 10 2 (by decide)
    (by decide)).2 (by decide) (by decide)).1
  exact h.trans (by decide)

/-- A default instantiation of the external formatting collaborators, for
witnesses. -/
def demo_fmt : ExternalFmt where
  format_tokens_compact := fun n => toString n
  percent_1dp := fun q => toString q
  file_display := fun p => p

/-- A state with one recorded turn, for the C9 witness. -/
def demo_turns_stats : SessionStats :=
  { SessionStats.new 0 with turn_token_usage := [⟨1, 10, 20, 0, 0⟩] }

/-- C9: the "Recent turns" block is omitted when the turn log is empty;
otherwise it is a header line followed by one line per shown record, the
shown records being exactly the last (at most five) records of the log in
chronological order, each rendered with its input and output token counts;
and the block occurs verbatim inside the full line list built by the
formatter. -/
theorem recent_turns_block_spec (F : ExternalFmt) (now : Nat)
    (s : SessionStats) :
    (s.turn_token_breakdown = [] →
      recent_turns_lines F.format_tokens_compact s.turn_token_breakdown = []) ∧
    (s.turn_token_breakdown ≠ [] →
      recent_turns_lines F.format_tokens_compact s.turn_token_breakdown =
        ["  Recent turns:"] ::
          ((s.turn_token_breakdown.reverse.take 5).reverse.map
            (turn_line F.format_tokens_compact)) ∧
      (s.turn_token_breakdown.reverse.take 5).reverse =
        s.turn_token_breakdown.drop (s.turn_token_breakdown.length - 5) ∧
      (s.turn_token_breakdown.reverse.take 5).reverse.length ≤ 5) ∧
    (∃ pre post, build_stats_lines F now s =
      pre ++ recent_turns_lines F.format_tokens_compact s.turn_token_breakdown
        ++ post) := by
  refine ⟨?_, ?_, ?_⟩
  · intro h
    simp [recent_turns_lines, h]
  · intro h
    have hne : s.turn_token_breakdown.isEmpty = false := by
      simpa [List.isEmpty_iff] using h
    refine ⟨by simp [recent_turns_lines, hne], ?_, ?_⟩
    · have hr := (List.rtake_eq_reverse_take_reverse
        (l := s.turn_token_breakdown) (n := 5)).symm
      simpa [List.rtake] using hr
    · simp [List.length_take]
  · exact ⟨_, _, by unfold build_stats_lines; rfl⟩

theorem recent_turns_block_spec_witness :
    recent_turns_lines demo_fmt.format_tokens_compact
      (SessionStats.new 0).turn_token_breakdown = [] ∧
    (demo_turns_stats.turn_token_breakdown.reverse.take 5).reverse =
      demo_turns_stats.turn_token_breakdown.drop
        (demo_turns_stats.turn_token_breakdown.length - 5) :=
  ⟨(recent_turns_block_spec demo_fmt 0 (SessionStats.new 0)).1 rfl,
   ((recent_turns_block_spec demo_fmt 0 demo_turns_stats).2.1 (by decide)).2.1⟩
